import Mathlib

/-
  Verification of the tool-call dispatch core and safety-evaluation layer of
  the tool_calling_api repository.

  The Python sources are shallowly embedded:
  * pure string manipulation becomes functions on `String` / `List Char`;
  * `re` patterns become a small regular-expression AST with a
    derivative-based matcher (patterns are matched against the lowercased
    text, mirroring `text.lower()` + `re.IGNORECASE` over all-lowercase
    patterns);
  * floats become `ℚ` (all scores in the source are exact multiples of 0.1,
    so rational arithmetic is an exact model of the intended values);
  * Python exceptions become `Except String`; a `try/except` in the source
    becomes an explicit `match` on the `Except` value;
  * external collaborators (the africastalking SDK, HTTP endpoints, the
    DuckDuckGo client, the autogen agent chat) are cut at their call
    boundary and passed in as function parameters, so that theorems can
    quantify over arbitrary handler behaviour (including raising handlers)
    and observe whether and with which arguments a handler was invoked.

  ASCII approximation: `str.lower`, `str.isdigit`, `str.isalpha`,
  `str.strip` and `\s` are modelled on ASCII characters (`Char.toLower`,
  `Char.isDigit`, `Char.isAlpha`, the six ASCII whitespace characters);
  the claims under verification do not depend on non-ASCII behaviour.
-/

/-! ### Python string primitives -/

/-- Python `\s` / `str.strip` whitespace class (ASCII part). -/
def pyWhitespaceB (c : Char) : Bool :=
  c = ' ' || c = '\t' || c = '\n' || c = '\r' || c = '\x0b' || c = '\x0c'

/-- Python `str.lower()` (ASCII). -/
def pyLower (s : String) : String :=
  String.mk (s.data.map Char.toLower)

/-- Python `str.startswith(pre)`. -/
def pyStartsWith (s pre : String) : Bool :=
  pre.data.isPrefixOf s.data

/-- Python `str.isdigit()`: non-empty and all digits (ASCII digits). -/
def pyIsDigit (s : String) : Bool :=
  !s.data.isEmpty && s.data.all Char.isDigit

/-- Python `str.isalpha()`: non-empty and all letters (ASCII letters). -/
def pyIsAlpha (s : String) : Bool :=
  !s.data.isEmpty && s.data.all Char.isAlpha

/-- Python `str.strip()` on a character list. -/
def stripList (l : List Char) : List Char :=
  ((l.dropWhile pyWhitespaceB).reverse.dropWhile pyWhitespaceB).reverse

/-- Python `str.strip()`. -/
def pyStrip (s : String) : String :=
  String.mk (stripList s.data)

/-- Contiguous-substring test on character lists (Python `needle in hay`). -/
def listContains : List Char → List Char → Bool
  | n, [] => n.isEmpty
  | n, c :: t => n.isPrefixOf (c :: t) || listContains n t

/-- Python `needle in hay` for strings. -/
def pyIn (needle hay : String) : Bool :=
  listContains needle.data hay.data

/-! ### A small regular-expression engine (Brzozowski derivatives)

Only the constructs used by the safety patterns of
`src/utils/inspect_safety.py` and the amount pattern of
`src/utils/function_call.py` are needed: literals, character classes,
concatenation, alternation, Kleene star (from which `+`, `?`, `{1,2}`,
`{2,}` are derived). -/

inductive RE where
  | fail
  | eps
  | lit (c : Char)
  | cls (p : Char → Bool)
  | seq (r₁ r₂ : RE)
  | alt (r₁ r₂ : RE)
  | star (r : RE)

def mkSeq : RE → RE → RE
  | RE.fail, _ => RE.fail
  | RE.eps, r => r
  | r₁, r₂ => RE.seq r₁ r₂

def mkAlt : RE → RE → RE
  | RE.fail, r => r
  | r₁, r₂ => RE.alt r₁ r₂

def nullable : RE → Bool
  | RE.fail => false
  | RE.eps => true
  | RE.lit _ => false
  | RE.cls _ => false
  | RE.seq r₁ r₂ => nullable r₁ && nullable r₂
  | RE.alt r₁ r₂ => nullable r₁ || nullable r₂
  | RE.star _ => true

def reDeriv : RE → Char → RE
  | RE.fail, _ => RE.fail
  | RE.eps, _ => RE.fail
  | RE.lit c, a => if a = c then RE.eps else RE.fail
  | RE.cls p, a => if p a then RE.eps else RE.fail
  | RE.seq r₁ r₂, a =>
      if nullable r₁ then mkAlt (mkSeq (reDeriv r₁ a) r₂) (reDeriv r₂ a)
      else mkSeq (reDeriv r₁ a) r₂
  | RE.alt r₁ r₂, a => mkAlt (reDeriv r₁ a) (reDeriv r₂ a)
  | RE.star r, a => mkSeq (reDeriv r a) (RE.star r)

/-- Does some prefix of the input match the pattern?
(`re.match`-like, anchored at the current position). -/
def matchesPref : RE → List Char → Bool
  | RE.fail, _ => false
  | r, [] => nullable r
  | r, c :: cs => nullable r || matchesPref (reDeriv r c) cs

/-- `re.search`: does the pattern match starting at any position? -/
def reSearch (r : RE) : List Char → Bool
  | [] => nullable r
  | c :: cs => matchesPref r (c :: cs) || reSearch r cs

/-- Full match of the whole input against the pattern. -/
def reMatchFull (r : RE) : List Char → Bool
  | [] => nullable r
  | c :: cs => reMatchFull (reDeriv r c) cs

/-- Python `re.match` of a pattern of the form `^...$`: the `$` also
matches just before a single trailing newline. -/
def pyFullMatchDollar (r : RE) (s : List Char) : Bool :=
  reMatchFull r s ||
    (if s.getLast? = some '\n' then reMatchFull r s.dropLast else false)

/-- Sequence of literal characters. -/
def rlits (s : String) : RE :=
  s.data.foldr (fun c r => RE.seq (RE.lit c) r) RE.eps

/-- Concatenation of a list of patterns. -/
def rcatL (l : List RE) : RE :=
  l.foldr RE.seq RE.eps

/-- Alternation of a list of patterns. -/
def raltL : List RE → RE
  | [] => RE.fail
  | [r] => r
  | r :: rs => RE.alt r (raltL rs)

/-- `(?:w₁|w₂|...)` over literal words. -/
def altWords (ws : List String) : RE :=
  raltL (ws.map rlits)

/-- `r?` -/
def ropt (r : RE) : RE := RE.alt r RE.eps

/-- `\s` -/
def wsChar : RE := RE.cls pyWhitespaceB

/-- `\s+` -/
def wsPlus : RE := RE.seq wsChar (RE.star wsChar)

/-- `\s*` -/
def wsStar : RE := RE.star wsChar

/-! ### Safety patterns (`src/utils/inspect_safety.py`, `InspectSafetyLayer`)

Each entry pairs the original regex source text (as stored in the Python
lists, and used verbatim in `flagged_patterns` labels) with its `RE`
encoding.  The text is matched after `.lower()`, so `re.IGNORECASE` over
the all-lowercase patterns reduces to case-sensitive matching (the single
uppercase fragment `AI` in the last pattern is encoded lowercased). -/

def pat_ignore_instructions : RE :=
  rcatL [rlits "ignore", wsPlus, ropt (rcatL [rlits "all", wsPlus]),
    altWords ["previous", "prior", "above"], wsPlus,
    altWords ["instructions", "prompts", "commands"]]

def pat_disregard_instructions : RE :=
  rcatL [rlits "disregard", wsPlus, ropt (rcatL [rlits "all", wsPlus]),
    altWords ["previous", "prior", "above"], wsPlus,
    altWords ["instructions", "prompts", "commands"]]

def pat_forget_instructions : RE :=
  rcatL [rlits "forget", wsPlus, ropt (rcatL [rlits "all", wsPlus]),
    altWords ["previous", "prior", "above"], wsPlus,
    altWords ["instructions", "prompts", "commands"]]

def pat_override_system : RE :=
  rcatL [rlits "override", wsPlus, altWords ["system", "safety", "security"],
    wsPlus, altWords ["instructions", "protocols", "settings"]]

def pat_system_override : RE :=
  rcatL [altWords ["system", "prompt"], wsPlus,
    ropt (rcatL [rlits "prompt", wsPlus]), rlits "override"]

def pat_bypass_safety : RE :=
  rcatL [rlits "bypass", wsPlus, ropt (rcatL [rlits "all", wsPlus]),
    altWords ["safety", "security"], wsPlus,
    altWords ["checks", "protocols", "settings"]]

def pat_act_as_unrestricted : RE :=
  rcatL [rlits "act", wsPlus, rlits "as", wsPlus,
    ropt (rcatL [rlits "if", wsPlus]), rlits "you", wsPlus,
    altWords ["are", "were"], wsPlus,
    RE.alt (rlits "not") (rcatL [rlits "no", wsPlus, rlits "longer"]), wsPlus,
    altWords ["restricted", "limited", "bound"]]

def pat_jailbroken : RE :=
  rcatL [rlits "you", wsPlus, altWords ["are", "have"], wsPlus,
    rlits "been", wsPlus, altWords ["jailbroken", "freed", "liberated"]]

def pat_new_instructions : RE :=
  rcatL [rlits "new", wsPlus,
    altWords ["instructions", "commands", "directives"], wsStar, rlits ":"]

def pat_system_prompt : RE :=
  rcatL [rlits "system", wsPlus, altWords ["prompt", "message"], wsStar,
    rlits ":"]

def pat_developer_mode : RE :=
  rcatL [rlits "developer", wsPlus, altWords ["mode", "override", "bypass"]]

def pat_sudo_mode : RE :=
  rcatL [rlits "sudo", wsPlus, altWords ["mode", "access", "override"]]

def pat_admin_mode : RE :=
  rcatL [rlits "admin", wsPlus, altWords ["mode", "access", "override"]]

def pat_separator_ignore : RE :=
  rcatL [rlits "\\n\\n",
    RE.seq (RE.lit '=') (RE.seq (RE.lit '=') (RE.star (RE.lit '='))),
    rlits "\\n\\n", rlits "ignore"]

def pat_pretend_not_ai : RE :=
  rcatL [rlits "pretend", wsPlus, rlits "you", wsPlus, rlits "are", wsPlus,
    RE.alt (rlits "not") (rcatL [rlits "no", wsPlus, rlits "longer"]), wsPlus,
    rlits "a", ropt (RE.lit 'n'), wsPlus,
    altWords ["ai", "assistant", "chatbot"]]

/-- `InspectSafetyLayer.UNSAFE_PATTERNS`. -/
def UNSAFE_PATTERNS : List (String × RE) :=
  [("ignore\\s+(?:all\\s+)?(?:previous|prior|above)\\s+(?:instructions|prompts|commands)",
    pat_ignore_instructions),
   ("disregard\\s+(?:all\\s+)?(?:previous|prior|above)\\s+(?:instructions|prompts|commands)",
    pat_disregard_instructions),
   ("forget\\s+(?:all\\s+)?(?:previous|prior|above)\\s+(?:instructions|prompts|commands)",
    pat_forget_instructions),
   ("override\\s+(?:system|safety|security)\\s+(?:instructions|protocols|settings)",
    pat_override_system),
   ("(?:system|prompt)\\s+(?:prompt\\s+)?override", pat_system_override),
   ("bypass\\s+(?:all\\s+)?(?:safety|security)\\s+(?:checks|protocols|settings)",
    pat_bypass_safety),
   ("act\\s+as\\s+(?:if\\s+)?you\\s+(?:are|were)\\s+(?:not|no\\s+longer)\\s+(?:restricted|limited|bound)",
    pat_act_as_unrestricted),
   ("you\\s+(?:are|have)\\s+been\\s+(?:jailbroken|freed|liberated)",
    pat_jailbroken),
   ("new\\s+(?:instructions|commands|directives)\\s*:", pat_new_instructions),
   ("system\\s+(?:prompt|message)\\s*:", pat_system_prompt),
   ("developer\\s+(?:mode|override|bypass)", pat_developer_mode),
   ("sudo\\s+(?:mode|access|override)", pat_sudo_mode),
   ("admin\\s+(?:mode|access|override)", pat_admin_mode),
   ("\\\\n\\\\n=\x7b2,\x7d\\\\n\\\\nignore", pat_separator_ignore),
   ("pretend\\s+you\\s+are\\s+(?:not|no\\s+longer)\\s+an?\\s+(?:AI|assistant|chatbot)",
    pat_pretend_not_ai)]

/-- `InspectSafetyLayer.PREFIX_ATTACK_PATTERNS`.  The `^` anchor of each
source pattern is represented by matching with `matchesPref` (anchored at
position 0) instead of `reSearch`. -/
def PREFIX_ATTACK_PATTERNS : List (String × RE) :=
  [("^ignore\\s+previous", rcatL [rlits "ignore", wsPlus, rlits "previous"]),
   ("^disregard\\s+previous",
    rcatL [rlits "disregard", wsPlus, rlits "previous"]),
   ("^forget\\s+everything",
    rcatL [rlits "forget", wsPlus, rlits "everything"]),
   ("^new\\s+instruction:", rcatL [rlits "new", wsPlus, rlits "instruction:"]),
   ("^system:", rlits "system:"),
   ("^override:", rlits "override:")]

/-- `InspectSafetyLayer.SENSITIVE_OPERATIONS`. -/
def SENSITIVE_OPERATIONS : List String :=
  ["send_airtime", "send_message", "send_whatsapp", "make_voice_call",
   "send_mobile_data", "send airtime", "send message", "voice call",
   "mobile data"]

/-! ### Safety evaluation (`InspectSafetyLayer.evaluate_safety`) -/

/-- `SafetyCheckResult` dataclass. -/
structure SafetyCheckResult where
  is_safe : Bool
  score : ℚ
  flagged_patterns : List String
  message : String
deriving DecidableEq

/-- `InspectSafetyLayer.check_prompt_injection`: returns
`(is_safe, matched patterns)`. -/
def checkPromptInjection (text : String) : Bool × List String :=
  let matched :=
    (UNSAFE_PATTERNS.filter fun p => reSearch p.2 (pyLower text).data).map
      Prod.fst
  (matched.isEmpty, matched)

/-- `InspectSafetyLayer.check_prefix_attack`: returns
`(is_safe, matched patterns)`. -/
def checkPrefixAttack (text : String) : Bool × List String :=
  let matched :=
    (PREFIX_ATTACK_PATTERNS.filter fun p =>
      matchesPref p.2 (pyLower text).data).map Prod.fst
  (matched.isEmpty, matched)

/-- `InspectSafetyLayer.check_sensitive_operations` (as the ordered
association list underlying the Python dict). -/
def checkSensitiveOperations (text : String) : List (String × Bool) :=
  SENSITIVE_OPERATIONS.map fun op => (op, pyIn op (pyLower text))

/-- `detected_ops = [op for op, detected in sensitive_ops.items() if detected]`. -/
def detectedOps (text : String) : List String :=
  ((checkSensitiveOperations text).filter fun p => p.2).map Prod.fst

/-- Python `min(a, b)` on two rationals (returns `a` on ties). -/
def pyMin (a b : ℚ) : ℚ := if b < a then b else a

/-- Python `max(a, b)` on two rationals (returns `a` on ties). -/
def pyMax (a b : ℚ) : ℚ := if a < b then b else a

/-- The `base_score` computed by `evaluate_safety` before clamping:
start at 1.0, subtract 0.5 per matched pattern family, and in strict mode
0.1 per detected sensitive operation. -/
def baseScore (strict_mode : Bool) (user_input : String) : ℚ :=
  let b₁ : ℚ :=
    if (checkPromptInjection user_input).1 then 1.0 else 1.0 - 0.5
  let b₂ : ℚ := if (checkPrefixAttack user_input).1 then b₁ else b₁ - 0.5
  if strict_mode && !(detectedOps user_input).isEmpty then
    b₂ - 0.1 * ((detectedOps user_input).length : ℚ)
  else b₂

/-- `safety_score = max(0.0, min(1.0, base_score))`. -/
def scoreOf (strict_mode : Bool) (user_input : String) : ℚ :=
  pyMax 0 (pyMin 1 (baseScore strict_mode user_input))

/-- `is_safe = safety_score >= 0.6`. -/
def isSafeOf (strict_mode : Bool) (user_input : String) : Bool :=
  decide (scoreOf strict_mode user_input ≥ 0.6)

/-- The `flagged_patterns` list: family-tagged pattern sources, injection
first, then prefix attacks (independent of `strict_mode`). -/
def flaggedOf (user_input : String) : List String :=
  (if (checkPromptInjection user_input).1 then []
   else (checkPromptInjection user_input).2.map fun p => "injection:" ++ p) ++
  (if (checkPrefixAttack user_input).1 then []
   else (checkPrefixAttack user_input).2.map fun p => "prefix_attack:" ++ p)

/-- Render a clamped score the way `f"{safety_score:.2f}"` does; exact for
every score the evaluator can produce (multiples of 0.1 in `[0, 1]`). -/
def formatScore2 (q : ℚ) : String :=
  let n := (q * 100).num.toNat
  toString (n / 100) ++ "." ++
    (if n % 100 < 10 then "0" ++ toString (n % 100) else toString (n % 100))

/-- The human-readable `message` built by `evaluate_safety`. -/
def messageOf (strict_mode : Bool) (user_input : String) : String :=
  if isSafeOf strict_mode user_input then
    if !(detectedOps user_input).isEmpty then
      "Input passed safety checks. Detected operations: " ++
        String.intercalate ", " (detectedOps user_input)
    else "Input passed all safety checks."
  else
    "Input failed safety checks. Detected " ++
      toString (flaggedOf user_input).length ++ " violations. Safety score: " ++
      formatScore2 (scoreOf strict_mode user_input)

/-- `InspectSafetyLayer.evaluate_safety` (with the layer's `strict_mode`
as first argument). -/
def evaluateSafety (strict_mode : Bool) (user_input : String) :
    SafetyCheckResult :=
  { is_safe := isSafeOf strict_mode user_input
    score := scoreOf strict_mode user_input
    flagged_patterns := flaggedOf user_input
    message := messageOf strict_mode user_input }

/-! ### Masking utilities

`mask_phone_number` and `mask_api_key` are defined identically (and twice
each: in `src/utils/function_call.py` and `src/utils/communication_apis.py`);
both compute `"x" * (len(s) - 4) + s[-4:]`.  Python multiplies a string by
a negative number to the empty string, matching truncated `Nat`
subtraction, and `s[-4:]` is the whole string when `len(s) < 4`, matching
`List.drop (len - 4)`. -/

def mask_phone_number (phone_number : String) : String :=
  String.mk (List.replicate (phone_number.data.length - 4) 'x' ++
    phone_number.data.drop (phone_number.data.length - 4))

def mask_api_key (api_key : String) : String :=
  String.mk (List.replicate (api_key.data.length - 4) 'x' ++
    api_key.data.drop (api_key.data.length - 4))

/-! ### Argument validators (pydantic request models, `function_call.py`)

A validator result is the ordered list of `(field, message)` pairs for the
failing fields; pydantic v2 runs the field validators in field-declaration
order and collects every failure into one `ValidationError`. -/

/-- Rendering of `str(ValidationError)`: header with the error count and
model name, then one block per failing field naming the field.  (The exact
pydantic layout carries additional detail; what matters for the claims is
that the text identifies the model and each offending field.) -/
def strValidationError (model : String) (errs : List (String × String)) :
    String :=
  toString errs.length ++ " validation error" ++
    (if errs.length = 1 then "" else "s") ++ " for " ++ model ++
    String.join (errs.map fun e => "\n" ++ e.1 ++ "\n  Value error, " ++ e.2)

/-- `json.dumps({"error": msg})`. -/
def jsonErrorStr (msg : String) : String :=
  "\x7b\"error\": \"" ++ msg ++ "\"\x7d"

/-- `SendAirtimeRequest.validate_phone_number`:
`not v or not v.startswith("+") or not v[1:].isdigit()` rejects. -/
def airtimePhoneValid (v : String) : Bool :=
  !v.data.isEmpty && pyStartsWith v "+" && pyIsDigit (String.mk (v.data.drop 1))

/-- `SendAirtimeRequest.validate_currency_code`. -/
def currencyCodeValid (v : String) : Bool :=
  !v.data.isEmpty && v.data.length = 3 && pyIsAlpha v

/-- The regex `^\d+(\.\d{1,2})?$` of `SendAirtimeRequest.validate_amount`. -/
def amountRE : RE :=
  rcatL [RE.cls Char.isDigit, RE.star (RE.cls Char.isDigit),
    ropt (rcatL [RE.lit '.', RE.cls Char.isDigit, ropt (RE.cls Char.isDigit)])]

/-- `SendAirtimeRequest.validate_amount`. -/
def amountValid (v : String) : Bool :=
  !v.data.isEmpty && pyFullMatchDollar amountRE v.data

/-- `SendAirtimeRequest` validation. -/
def validateSendAirtime (phone_number currency_code amount : String) :
    List (String × String) :=
  (if airtimePhoneValid phone_number then []
   else [("phone_number",
     "phone_number must be in international format, e.g. +254712345678")]) ++
  (if currencyCodeValid currency_code then []
   else [("currency_code",
     "currency_code must be a 3-letter ISO code, e.g. KES")]) ++
  (if amountValid amount then []
   else [("amount", "amount must be a valid decimal number, e.g. 10 or 10.50")])

/-- `SendSMSRequest.validate_phone_number`:
only `not v or not v.startswith("+")` rejects (no digit check). -/
def smsPhoneValid (v : String) : Bool :=
  !v.data.isEmpty && pyStartsWith v "+"

/-- `SendSMSRequest` non-empty text fields: `not v or len(v.strip()) == 0`
rejects. -/
def nonBlankValid (v : String) : Bool :=
  !v.data.isEmpty && !(pyStrip v).data.isEmpty

/-- `SendSMSRequest` validation. -/
def validateSMS (phone_number message username : String) :
    List (String × String) :=
  (if smsPhoneValid phone_number then []
   else [("phone_number",
     "phone_number must be in international format, e.g. +254712345678")]) ++
  (if nonBlankValid message then []
   else [("message", "message cannot be empty")]) ++
  (if nonBlankValid username then []
   else [("username", "username cannot be empty")])

/-- `SendWhatsAppMessageRequest.validate_phone_numbers`:
`not v.startswith("+")` rejects. -/
def plusPhoneValid (v : String) : Bool :=
  pyStartsWith v "+"

/-- `SendWhatsAppMessageRequest.validate_media_type`. -/
def mediaTypeValid (v : Option String) : Bool :=
  match v with
  | none => true
  | some m =>
      m.data.isEmpty ||
        (m = "Image" || m = "Video" || m = "Audio" || m = "Voice")

/-- `SendWhatsAppMessageRequest` validation (fields in declaration order). -/
def validateWhatsapp (wa_number phone_number : String)
    (media_type : Option String) : List (String × String) :=
  (if plusPhoneValid wa_number then []
   else [("wa_number", "Phone number must start with +")]) ++
  (if plusPhoneValid phone_number then []
   else [("phone_number", "Phone number must start with +")]) ++
  (if mediaTypeValid media_type then []
   else [("media_type", "media_type must be one of: Image, Video, Audio, Voice")])

/-- `MakeVoiceCallWithTextRequest` validation. -/
def validateVoiceCallWithText (from_number to_number voice : String) :
    List (String × String) :=
  (if plusPhoneValid from_number then []
   else [("from_number", "Phone number must start with +")]) ++
  (if plusPhoneValid to_number then []
   else [("to_number", "Phone number must start with +")]) ++
  (if voice = "man" || voice = "woman" then []
   else [("voice", "Voice must be either man or woman")])

/-- `MakeVoiceCallAndPlayAudioRequest` validation. -/
def validateVoiceCallPlayAudio (from_number to_number audio_url : String) :
    List (String × String) :=
  (if plusPhoneValid from_number then []
   else [("from_number", "Phone number must start with +")]) ++
  (if plusPhoneValid to_number then []
   else [("to_number", "Phone number must start with +")]) ++
  (if pyStartsWith audio_url "http://" || pyStartsWith audio_url "https://"
   then []
   else [("audio_url", "audio_url must be a valid HTTP/HTTPS URL")])

/-! ### Operation wrappers (`src/utils/function_call.py`)

Each wrapper takes its delegated external call (the corresponding
`communication_apis` function / HTTP request / agent chat) as a function
parameter of type `... → Except String String`: `Except.error e` models the
call raising an exception whose `str` is `e`.  A wrapper returning a plain
`String` models a Python function that cannot raise (its body is wrapped in
`try/except`); a wrapper returning `Except String String` can itself raise. -/

/-- `function_call.send_airtime`. -/
def fcSendAirtime (comm : String → String → String → Except String String)
    (phone_number currency_code amount : String) : String :=
  match validateSendAirtime phone_number currency_code amount with
  | [] =>
      match comm phone_number currency_code amount with
      | Except.ok r => r
      | Except.error e => jsonErrorStr e
  | errs => strValidationError "SendAirtimeRequest" errs

/-- `function_call.send_message`. -/
def fcSendMessage (comm : String → String → String → Except String String)
    (phone_number message username : String) : String :=
  match validateSMS phone_number message username with
  | [] =>
      match comm phone_number message username with
      | Except.ok r => r
      | Except.error e => jsonErrorStr e
  | errs => strValidationError "SendSMSRequest" errs

/-- `function_call.send_ussd`: no pydantic validation — only a
non-emptiness check on the two arguments before delegating. -/
def fcSendUssd (comm : String → String → Except String String)
    (phone_number code : String) : String :=
  if phone_number.data.isEmpty || code.data.isEmpty then
    jsonErrorStr ("Missing required arguments: phone_number=" ++ phone_number ++
      ", code=" ++ code)
  else
    match comm phone_number code with
    | Except.ok r => r
    | Except.error e =>
        jsonErrorStr ("Encountered an error while sending USSD: " ++ e)

/-- `function_call.make_voice_call`: the defensive check tests
`from_number`/`to_number` for truthiness but only `to_number` for the `+`
prefix. -/
def fcMakeVoiceCall (comm : String → String → Except String String)
    (from_number to_number : String) : String :=
  if from_number.data.isEmpty || to_number.data.isEmpty ||
      !pyStartsWith to_number "+" then
    jsonErrorStr ("Invalid phone numbers: from_number=" ++ from_number ++
      ", to_number=" ++ to_number)
  else
    match comm from_number to_number with
    | Except.ok r => r
    | Except.error e => jsonErrorStr e

/-- `function_call.make_voice_call_with_text` (its `except` converts a
`ValidationError` into a `{"error": ...}` JSON string). -/
def fcMakeVoiceCallWithText
    (comm : String → String → String → String → Except String String)
    (from_number to_number message voice_type : String) : String :=
  match validateVoiceCallWithText from_number to_number voice_type with
  | [] =>
      match comm from_number to_number message voice_type with
      | Except.ok r => r
      | Except.error e => jsonErrorStr e
  | errs => jsonErrorStr (strValidationError "MakeVoiceCallWithTextRequest" errs)

/-- `function_call.make_voice_call_and_play_audio`. -/
def fcMakeVoiceCallAndPlayAudio
    (comm : String → String → String → Except String String)
    (from_number to_number audio_url : String) : String :=
  match validateVoiceCallPlayAudio from_number to_number audio_url with
  | [] =>
      match comm from_number to_number audio_url with
      | Except.ok r => r
      | Except.error e => jsonErrorStr e
  | errs =>
      jsonErrorStr (strValidationError "MakeVoiceCallAndPlayAudioRequest" errs)

/-- `function_call.get_wallet_balance` (the HTTP request is the external
boundary). -/
def fcGetWalletBalance (http : Unit → Except String String) : String :=
  match http () with
  | Except.ok r => r
  | Except.error e => jsonErrorStr e

/-- `function_call.get_application_balance`. -/
def fcGetApplicationBalance (http : Bool → Except String String)
    (sandbox : Bool) : String :=
  match http sandbox with
  | Except.ok r => r
  | Except.error e => jsonErrorStr e

/-- `function_call.send_whatsapp_message`: pydantic validation first, then
the credential check, then the delegated send; every exception is caught
and rendered as an error JSON. -/
def fcSendWhatsapp
    (comm : String → String → String → String → Option String →
      Option String → Option String → Option String → Bool →
      Except String String)
    (atUsername atApiKey wa_number phone_number : String)
    (message media_type url caption : Option String) (sandbox : Bool) :
    String :=
  match validateWhatsapp wa_number phone_number media_type with
  | [] =>
      if atUsername.data.isEmpty || atApiKey.data.isEmpty then
        "\x7b\"error\": \"Authentication credentials missing\"\x7d"
      else
        match comm atUsername atApiKey wa_number phone_number message
            media_type url caption sandbox with
        | Except.ok r => r
        | Except.error e => jsonErrorStr e
  | errs => jsonErrorStr (strValidationError "SendWhatsAppMessageRequest" errs)

/-- One article returned by the DuckDuckGo news client
(only the fields read by `search_news`). -/
structure NewsArticle where
  title : Option String
  source : Option String
  body : Option String
  url : Option String

/-- The per-article formatting of `function_call.search_news`. -/
def formatArticle (a : NewsArticle) : String :=
  "Title: " ++ a.title.getD "No Title" ++ "\nSource: " ++
    a.source.getD "No Source" ++ "\nSummary: " ++ a.body.getD "No Summary" ++
    "\nURL: " ++ a.url.getD "No URL"

/-- `function_call.search_news`: no `try/except` — an exception from the
news client propagates to the caller. -/
def fcSearchNews (ddgs : String → Except String (List NewsArticle))
    (query : String) : Except String String :=
  match ddgs query with
  | Except.error e => Except.error e
  | Except.ok [] => Except.ok "No news found for your query."
  | Except.ok results =>
      Except.ok (String.intercalate "\n\n---\n\n" (results.map formatArticle))

/-- The `language_map` lookup of `function_call.translate_text`. -/
def languageMap (t : String) : Option String :=
  if t = "french" || t = "fr" then some "French"
  else if t = "arabic" || t = "ar" then some "Arabic"
  else if t = "portuguese" || t = "pt" then some "Portuguese"
  else none

/-- `function_call.translate_text`: raises a `ValueError` on an
unsupported target language, and has no `try/except` around the agent
chat, so a chat failure propagates.  The agent conversation is the
external boundary (given the text and the normalized language). -/
def fcTranslateText (chat : String → String → Except String String)
    (text target_language : String) : Except String String :=
  match languageMap (pyLower target_language) with
  | none => Except.error "Target language must be French, Arabic, or Portuguese."
  | some lang => chat text lang

/-! ### Mobile data (`src/utils/communication_apis.py`) -/

/-- `int("".join(filter(str.isdigit, s)))` when the digit list is
non-empty. -/
def natFromDigits (cs : List Char) : Nat :=
  cs.foldl (fun n c => n * 10 + (c.toNat - 48)) 0

/-- Quantity/unit extraction of `send_mobile_data_wrapper` for a string
bundle: `bundle_lower = str(bundle).lower().strip()`, unit `GB` when
`"gb" in bundle_lower` else `MB`, quantity from the concatenated digit
characters. -/
def parseBundle (bundle : String) : Nat × String :=
  let bundle_lower := pyStrip (pyLower bundle)
  if pyIn "gb" bundle_lower then
    (natFromDigits (bundle_lower.data.filter Char.isDigit), "GB")
  else
    (natFromDigits (bundle_lower.data.filter Char.isDigit), "MB")

/-- `plan_mapping` of `send_mobile_data_wrapper`. -/
def planMapping (p : String) : Option String :=
  if p = "daily" then some "Day"
  else if p = "weekly" then some "Week"
  else if p = "monthly" then some "Month"
  else if p = "day" then some "Day"
  else if p = "week" then some "Week"
  else if p = "month" then some "Month"
  else none

/-- `communication_apis.send_mobile_data_wrapper` for a string bundle,
with `send_mobile_data_original` as the external boundary
(`upstream phone quantity unit validity product_name`).  Raised
`ValueError`s and upstream exceptions are caught by the wrapper and
rendered as `{"error": "Error in send_mobile_data_wrapper: ..."}`. -/
def send_mobile_data_wrapper
    (upstream : String → Nat → String → String → String →
      Except String String)
    (phone_number bundle provider plan : String) : String :=
  let bundle_lower := pyStrip (pyLower bundle)
  if (bundle_lower.data.filter Char.isDigit).isEmpty then
    jsonErrorStr
      "Error in send_mobile_data_wrapper: invalid literal for int() with base 10: ''"
  else
    let quantity := (parseBundle bundle).1
    if quantity = 0 then
      jsonErrorStr
        ("Error in send_mobile_data_wrapper: Bundle quantity must be positive: "
          ++ toString quantity)
    else
      match planMapping (pyStrip (pyLower plan)) with
      | none =>
          jsonErrorStr ("Error in send_mobile_data_wrapper: Invalid plan duration: "
            ++ plan ++ ". Must be daily, weekly, or monthly.")
      | some validity =>
          match upstream phone_number quantity (parseBundle bundle).2 validity
              (pyStrip provider ++ "_mobile_data") with
          | Except.ok r => r
          | Except.error e =>
              jsonErrorStr ("Error in send_mobile_data_wrapper: " ++ e)

/-! ### The two dispatchers (`src/app.py` and `function_call.run`)

`Handlers` bundles every external collaborator reached from a tool branch;
`Env` carries the `AT_USERNAME` / `AT_API_KEY` environment (an unset
variable is modelled as the empty string, which is equally falsy in the
source's truthiness checks).  Tool-call arguments are modelled as an
association list of string-valued entries; `arguments["k"]` on a missing
key raises a `KeyError`. -/

structure Handlers where
  commSendAirtime : String → String → String → Except String String
  commSendMessage : String → String → String → Except String String
  commSendUssd : String → String → Except String String
  commMakeVoiceCall : String → String → Except String String
  commMakeVoiceCallWithText :
    String → String → String → String → Except String String
  commMakeVoiceCallPlayAudio :
    String → String → String → Except String String
  commSendWhatsapp : String → String → String → String → Option String →
    Option String → Option String → Option String → Bool →
    Except String String
  commSendMobileData :
    String → Nat → String → String → String → Except String String
  ddgsNews : String → Except String (List NewsArticle)
  agentChat : String → String → Except String String
  httpWalletBalance : Unit → Except String String
  httpAppBalance : Bool → Except String String

structure Env where
  atUsername : String
  atApiKey : String

/-- `arguments.get(k)`. -/
def lookupArg (args : List (String × String)) (k : String) : Option String :=
  (args.find? fun p => p.1 = k).map Prod.snd

/-- `arguments[k]`: raises `KeyError` when missing. -/
def getArg (args : List (String × String)) (k : String) :
    Except String String :=
  match lookupArg args k with
  | some v => Except.ok v
  | none => Except.error ("KeyError: " ++ k)

/-- `arguments.get(k, default)`. -/
def getArgD (args : List (String × String)) (k d : String) : String :=
  (lookupArg args k).getD d

/-- Truthiness of `arguments.get(k, False)` for string-valued arguments
(the default `False` is falsy, as is an empty string). -/
def argTruthy (args : List (String × String)) (k : String) : Bool :=
  match lookupArg args k with
  | some v => !v.data.isEmpty
  | none => false

/-- How a branch of `process_user_message` delivers its response: `wrap`
falls through to the common
`return f"Function `{tool_name}` executed successfully.Response:\n..."`,
`direct` returns a bare string from inside the branch. -/
inductive AppRet where
  | wrap (response : String)
  | direct (response : String)

/-- `json.dumps({"error": "Unknown function"})` of the final `else`. -/
def unknownFunctionJson : String := jsonErrorStr "Unknown function"

/-- The bare-return credentials error of the `send_mobile_data` branch. -/
def missingCredsJson : String :=
  jsonErrorStr "Missing AT_USERNAME or AT_API_KEY environment variables"

/-- The message of the `except` clause around the tool-call branches of
`process_user_message`. -/
def genericErrorMsg : String :=
  "An unexpected error occurred while processing your message."

/-- The common return of a successfully executed branch. -/
def appWrap (tool_name response : String) : String :=
  "Function `" ++ tool_name ++ "` executed successfully.Response:\n" ++
    response

/-- The `if tool_name == ... / elif ... / else` chain inside the `try` of
`app.process_user_message` (the `Except.error` outcome is an exception
reaching the surrounding `except`). -/
def appDispatchBody (H : Handlers) (env : Env) (tool_name : String)
    (args : List (String × String)) : Except String AppRet :=
  if tool_name = "send_airtime" then do
    let pn ← getArg args "phone_number"
    let cc ← getArg args "currency_code"
    let amt ← getArg args "amount"
    pure (AppRet.wrap (fcSendAirtime H.commSendAirtime pn cc amt))
  else if tool_name = "send_message" then do
    let pn ← getArg args "phone_number"
    let msg ← getArg args "message"
    let usr ← getArg args "username"
    pure (AppRet.wrap (fcSendMessage H.commSendMessage pn msg usr))
  else if tool_name = "search_news" then do
    let q ← getArg args "query"
    let r ← fcSearchNews H.ddgsNews q
    pure (AppRet.wrap r)
  else if tool_name = "translate_text" then do
    let t ← getArg args "text"
    let tl ← getArg args "target_language"
    let r ← fcTranslateText H.agentChat t tl
    pure (AppRet.wrap r)
  else if tool_name = "send_ussd" then do
    let pn ← getArg args "phone_number"
    let code ← getArg args "code"
    pure (AppRet.wrap (fcSendUssd H.commSendUssd pn code))
  else if tool_name = "send_mobile_data" then
    if env.atUsername.data.isEmpty || env.atApiKey.data.isEmpty then
      pure (AppRet.direct missingCredsJson)
    else do
      let pn ← getArg args "phone_number"
      let b ← getArg args "bundle"
      let prov ← getArg args "provider"
      let plan ← getArg args "plan"
      pure (AppRet.wrap
        (send_mobile_data_wrapper H.commSendMobileData pn b prov plan))
  else if tool_name = "make_voice_call" then do
    let f ← getArg args "from_number"
    let t ← getArg args "to_number"
    pure (AppRet.wrap (fcMakeVoiceCall H.commMakeVoiceCall f t))
  else if tool_name = "get_wallet_balance" then
    pure (AppRet.wrap (fcGetWalletBalance H.httpWalletBalance))
  else if tool_name = "make_voice_call_with_text" then do
    let f ← getArg args "from_number"
    let t ← getArg args "to_number"
    let m ← getArg args "message"
    pure (AppRet.wrap (fcMakeVoiceCallWithText H.commMakeVoiceCallWithText
      f t m (getArgD args "voice_type" "woman")))
  else if tool_name = "make_voice_call_and_play_audio" then do
    let f ← getArg args "from_number"
    let t ← getArg args "to_number"
    let a ← getArg args "audio_url"
    pure (AppRet.wrap
      (fcMakeVoiceCallAndPlayAudio H.commMakeVoiceCallPlayAudio f t a))
  else if tool_name = "get_application_balance" then
    pure (AppRet.wrap
      (fcGetApplicationBalance H.httpAppBalance (argTruthy args "sandbox")))
  else if tool_name = "send_whatsapp_message" then do
    let wa ← getArg args "wa_number"
    let pn ← getArg args "phone_number"
    pure (AppRet.wrap (fcSendWhatsapp H.commSendWhatsapp env.atUsername
      env.atApiKey wa pn (lookupArg args "message")
      (lookupArg args "media_type") (lookupArg args "url")
      (lookupArg args "caption") (argTruthy args "sandbox")))
  else
    pure (AppRet.wrap unknownFunctionJson)

/-- The tool-dispatch section of `app.process_user_message` for one tool
call: the branch chain inside `try`, the common success return, and the
`except` clause returning a fixed message. -/
def processUserMessageTool (H : Handlers) (env : Env) (tool_name : String)
    (args : List (String × String)) : String :=
  match appDispatchBody H env tool_name args with
  | Except.ok (AppRet.wrap r) => appWrap tool_name r
  | Except.ok (AppRet.direct r) => r
  | Except.error _ => genericErrorMsg

/-- The keys of the `available_functions` dict in `function_call.run`. -/
def availableFunctionNames : List String :=
  ["send_airtime", "send_message", "search_news", "translate_text",
   "send_ussd", "send_mobile_data", "make_voice_call",
   "make_voice_call_with_text", "make_voice_call_and_play_audio",
   "get_wallet_balance", "get_application_balance", "send_whatsapp_message"]

/-- The tool-dispatch section of `function_call.run` for one tool call.
There is no `try/except` in `run`: the dict lookup
`available_functions[name]` raises a `KeyError` for an unknown name, and
any exception from a branch propagates out of `run` (`Except.error`). -/
def runDispatchTool (H : Handlers) (env : Env) (name : String)
    (args : List (String × String)) : Except String String :=
  if availableFunctionNames.contains name then
    if name = "send_airtime" then do
      let pn ← getArg args "phone_number"
      let cc ← getArg args "currency_code"
      let amt ← getArg args "amount"
      pure (fcSendAirtime H.commSendAirtime pn cc amt)
    else if name = "send_message" then do
      let pn ← getArg args "phone_number"
      let msg ← getArg args "message"
      let usr ← getArg args "username"
      pure (fcSendMessage H.commSendMessage pn msg usr)
    else if name = "search_news" then do
      let q ← getArg args "query"
      fcSearchNews H.ddgsNews q
    else if name = "translate_text" then do
      let t ← getArg args "text"
      let tl ← getArg args "target_language"
      fcTranslateText H.agentChat t tl
    else if name = "send_ussd" then do
      let pn ← getArg args "phone_number"
      let code ← getArg args "code"
      pure (fcSendUssd H.commSendUssd pn code)
    else if name = "send_mobile_data" then do
      let pn ← getArg args "phone_number"
      let b ← getArg args "bundle"
      let prov ← getArg args "provider"
      let plan ← getArg args "plan"
      pure (send_mobile_data_wrapper H.commSendMobileData pn b prov plan)
    else if name = "make_voice_call" then do
      let f ← getArg args "from_number"
      let t ← getArg args "to_number"
      pure (fcMakeVoiceCall H.commMakeVoiceCall f t)
    else if name = "make_voice_call_with_text" then do
      let f ← getArg args "from_number"
      let t ← getArg args "to_number"
      let m ← getArg args "message"
      pure (fcMakeVoiceCallWithText H.commMakeVoiceCallWithText f t m
        (getArgD args "voice_type" "woman"))
    else if name = "make_voice_call_and_play_audio" then do
      let f ← getArg args "from_number"
      let t ← getArg args "to_number"
      let a ← getArg args "audio_url"
      pure (fcMakeVoiceCallAndPlayAudio H.commMakeVoiceCallPlayAudio f t a)
    else if name = "get_wallet_balance" then
      pure (fcGetWalletBalance H.httpWalletBalance)
    else if name = "get_application_balance" then
      pure (fcGetApplicationBalance H.httpAppBalance
        (argTruthy args "sandbox"))
    else if name = "send_whatsapp_message" then do
      let wa ← getArg args "wa_number"
      let pn ← getArg args "phone_number"
      pure (fcSendWhatsapp H.commSendWhatsapp env.atUsername env.atApiKey
        wa pn (lookupArg args "message") (lookupArg args "media_type")
        (lookupArg args "url") (lookupArg args "caption")
        (argTruthy args "sandbox"))
    else
      -- unreachable: every registered name has a branch above
      pure ""
  else
    Except.error ("KeyError: " ++ name)

/-! ### Concrete handler bundles and inputs used by closed theorems -/

/-- Handlers whose every external call succeeds with a fixed payload. -/
def defaultHandlers : Handlers where
  commSendAirtime := fun _ _ _ => Except.ok "\x7b\"status\": \"Sent\"\x7d"
  commSendMessage := fun _ _ _ => Except.ok "\x7b\"status\": \"Sent\"\x7d"
  commSendUssd := fun _ _ => Except.ok "\x7b\"status\": \"OK\"\x7d"
  commMakeVoiceCall := fun _ _ => Except.ok "\x7b\"status\": \"Queued\"\x7d"
  commMakeVoiceCallWithText :=
    fun _ _ _ _ => Except.ok "\x7b\"status\": \"Queued\"\x7d"
  commMakeVoiceCallPlayAudio :=
    fun _ _ _ => Except.ok "\x7b\"status\": \"Queued\"\x7d"
  commSendWhatsapp :=
    fun _ _ _ _ _ _ _ _ _ => Except.ok "\x7b\"status\": \"Sent\"\x7d"
  commSendMobileData :=
    fun _ _ _ _ _ => Except.ok "\x7b\"status\": \"Sent\"\x7d"
  ddgsNews := fun _ => Except.ok []
  agentChat := fun _ _ => Except.ok "Bonjour"
  httpWalletBalance := fun _ => Except.ok "\x7b\"balance\": \"KES 10\"\x7d"
  httpAppBalance := fun _ => Except.ok "\x7b\"balance\": \"KES 10\"\x7d"

/-- An environment with both credentials set. -/
def defaultEnv : Env where
  atUsername := "sandbox"
  atApiKey := "atsk_demo_key_1234"

/-- `defaultHandlers` with an agent chat that raises `"boom"`. -/
def boomHandlers : Handlers :=
  { defaultHandlers with agentChat := fun _ _ => Except.error "boom" }

/-- A well-formed argument bag for `send_airtime`. -/
def demoAirtimeArgs : List (String × String) :=
  [("phone_number", "+254712345678"), ("currency_code", "KES"),
   ("amount", "10")]

/-! ### The response envelope described by the specification

Modelled from the spec: `src/` contains no code constructing a
`{"success": ..., "result"/"error": ...}` envelope; these definitions
follow the spec text of §6 so that the shape of the actual dispatch
return values can be compared against it. -/

def specSuccessEnvelope (payload : String) : String :=
  "\x7b\"success\": true, \"result\": " ++ payload ++ "\x7d"

def specFailureEnvelope (kind message : String) : String :=
  "\x7b\"success\": false, \"error\": \x7b\"kind\": \"" ++ kind ++
    "\", \"message\": \"" ++ message ++ "\"\x7d\x7d"

/-- A string has the stable envelope shape of the specification. -/
def specEnvelopeShaped (s : String) : Prop :=
  (∃ p, s = specSuccessEnvelope p) ∨ ∃ k m, s = specFailureEnvelope k m

/-- No branch outcome of `appDispatchBody` other than the
missing-credentials early return delivers a `direct` response. -/
def noDirect (e : Except String AppRet) : Prop :=
  ∀ r, e = Except.ok (AppRet.direct r) → r = missingCredsJson

/-! ### Helper lemmas -/

theorem charToNatOfNat (n : Nat) (h : n.isValidChar) :
    (Char.ofNat n).toNat = n := by
  rw [Char.ofNat, dif_pos h]; rfl

theorem isDigit_iff_toNat (c : Char) :
    c.isDigit = true ↔ 48 ≤ c.toNat ∧ c.toNat ≤ 57 := by
  simp only [Char.isDigit, Bool.and_eq_true, decide_eq_true_eq]
  exact ⟨fun ⟨h1, h2⟩ => ⟨h1, h2⟩, fun ⟨h1, h2⟩ => ⟨h1, h2⟩⟩

theorem toLower_of_isDigit (c : Char) (h : c.isDigit = true) :
    c.toLower = c := by
  rw [Char.toLower, if_neg]
  rintro ⟨h1, _⟩
  have := (isDigit_iff_toNat c).mp h
  simp only [Char.toNat] at h1 this
  omega

theorem isDigit_toLower (c : Char) : c.toLower.isDigit = c.isDigit := by
  by_cases h : 65 ≤ c.toNat ∧ c.toNat ≤ 90
  · rw [Char.toLower, if_pos h]
    have hv : (c.toNat + 32).isValidChar := by
      constructor
      omega
    have ht : (Char.ofNat (c.toNat + 32)).toNat = c.toNat + 32 :=
      charToNatOfNat _ hv
    have h1 : (Char.ofNat (c.toNat + 32)).isDigit = false := by
      rw [Bool.eq_false_iff]
      intro hd
      have := (isDigit_iff_toNat _).mp hd
      omega
    have h2 : c.isDigit = false := by
      rw [Bool.eq_false_iff]
      intro hd
      have := (isDigit_iff_toNat _).mp hd
      omega
    rw [h1, h2]
  · rw [Char.toLower, if_neg h]

theorem ws_not_isDigit (c : Char) (h : pyWhitespaceB c = true) :
    c.isDigit = false := by
  simp only [pyWhitespaceB, Bool.or_eq_true, decide_eq_true_eq] at h
  rcases h with ((((h | h) | h) | h) | h) | h <;> subst h <;> decide

theorem filter_isDigit_map_toLower (l : List Char) :
    (l.map Char.toLower).filter Char.isDigit = l.filter Char.isDigit := by
  induction l with
  | nil => rfl
  | cons c t ih =>
    cases hd : c.isDigit with
    | false => simp [List.filter_cons, isDigit_toLower, hd, ih]
    | true =>
      simp [List.filter_cons, isDigit_toLower, hd, ih, toLower_of_isDigit c hd]

theorem filter_isDigit_dropWhile_ws (l : List Char) :
    (l.dropWhile pyWhitespaceB).filter Char.isDigit =
      l.filter Char.isDigit := by
  induction l with
  | nil => rfl
  | cons c t ih =>
    cases hw : pyWhitespaceB c with
    | false => simp [List.dropWhile_cons, hw]
    | true =>
      simp [List.dropWhile_cons, hw, ih, List.filter_cons, ws_not_isDigit c hw]

theorem filter_isDigit_stripList (l : List Char) :
    (stripList l).filter Char.isDigit = l.filter Char.isDigit := by
  unfold stripList
  rw [List.filter_reverse, filter_isDigit_dropWhile_ws, List.filter_reverse,
    filter_isDigit_dropWhile_ws, List.reverse_reverse]

theorem bundleLower_digits (bundle : String) :
    (pyStrip (pyLower bundle)).data.filter Char.isDigit =
      bundle.data.filter Char.isDigit := by
  show (stripList (bundle.data.map Char.toLower)).filter Char.isDigit = _
  rw [filter_isDigit_stripList, filter_isDigit_map_toLower]

theorem listContains_iff (n l : List Char) :
    listContains n l = true ↔ n <:+: l := by
  induction l with
  | nil =>
    simp only [listContains, List.isEmpty_eq_true, List.infix_nil]
  | cons c t ih =>
    simp only [listContains, Bool.or_eq_true, List.isPrefixOf_iff_prefix, ih,
      List.infix_cons_iff]

theorem infix_dropWhile_of_not_ws (p : Char → Bool) (n l : List Char)
    (hhead : ∀ c ∈ n, p c = false) (h : n <:+: l) : n <:+: l.dropWhile p := by
  induction l with
  | nil => rw [List.dropWhile_nil]; exact h
  | cons c t ih =>
    rw [List.dropWhile_cons]
    cases hc : p c with
    | false => simpa [hc] using h
    | true =>
      simp only [hc, if_true]
      rcases List.infix_cons_iff.mp h with hp | hi
      · cases n with
        | nil => exact List.nil_infix
        | cons a as =>
          have := (List.cons_prefix_cons.mp hp).1
          subst this
          rw [hhead a (List.mem_cons_self a as)] at hc
          exact absurd hc (by simp)
      · exact ih hi

theorem stripList_infix_self (l : List Char) : stripList l <:+: l := by
  unfold stripList
  have h1 : l.dropWhile pyWhitespaceB <:+ l := List.dropWhile_suffix _
  have h2 : ((l.dropWhile pyWhitespaceB).reverse.dropWhile pyWhitespaceB).reverse
      <+: l.dropWhile pyWhitespaceB := by
    rw [← List.reverse_suffix, List.reverse_reverse]
    exact List.dropWhile_suffix _
  exact h2.isInfix.trans h1.isInfix

theorem infix_stripList_iff (n l : List Char)
    (hws : ∀ c ∈ n, pyWhitespaceB c = false) :
    n <:+: stripList l ↔ n <:+: l := by
  constructor
  · exact fun h => h.trans (stripList_infix_self l)
  · intro h
    unfold stripList
    have s1 : n <:+: l.dropWhile pyWhitespaceB :=
      infix_dropWhile_of_not_ws _ _ _ hws h
    have s2 : n.reverse <:+: (l.dropWhile pyWhitespaceB).reverse :=
      List.reverse_infix.mpr s1
    have s3 : n.reverse <:+:
        (l.dropWhile pyWhitespaceB).reverse.dropWhile pyWhitespaceB :=
      infix_dropWhile_of_not_ws _ _ _ (by simpa using hws) s2
    have := List.reverse_infix.mpr s3
    simpa using this

theorem pyIn_gb_strip (s : String) :
    pyIn "gb" (pyStrip s) = pyIn "gb" s := by
  show listContains "gb".data (stripList s.data) = listContains "gb".data s.data
  rcases h : listContains "gb".data s.data with _ | _
  · rw [Bool.eq_false_iff]
    intro hc
    have := (listContains_iff _ _).mp hc
    have h2 := ((infix_stripList_iff "gb".data s.data (by decide)).mp this)
    rw [(listContains_iff _ _).mpr h2] at h
    exact Bool.false_ne_true h.symm
  · have := (listContains_iff _ _).mp h
    exact (listContains_iff _ _).mpr
      ((infix_stripList_iff "gb".data s.data (by decide)).mpr this)

theorem noDirect_error (e : String) : noDirect (Except.error e) := by
  intro r h
  exact absurd h (by simp)

theorem noDirect_wrap (s : String) : noDirect (pure (AppRet.wrap s)) := by
  intro r h
  simp only [pure, Except.pure, Except.ok.injEq] at h
  exact absurd h (by simp)

theorem noDirect_direct_self :
    noDirect (pure (AppRet.direct missingCredsJson)) := by
  intro r h
  simp only [pure, Except.pure, Except.ok.injEq, AppRet.direct.injEq] at h
  exact h.symm

theorem noDirect_bind (x : Except String String)
    (f : String → Except String AppRet) (hf : ∀ a, noDirect (f a)) :
    noDirect (x >>= f) := by
  intro r h
  cases x with
  | error e => simp [Bind.bind, Except.bind] at h
  | ok a => exact hf a r (by simpa [Bind.bind, Except.bind] using h)

theorem appDispatchBody_noDirect (H : Handlers) (env : Env) (name : String)
    (args : List (String × String)) :
    noDirect (appDispatchBody H env name args) := by
  unfold appDispatchBody
  by_cases h1 : name = "send_airtime"
  · rw [if_pos h1]
    repeat first
      | exact noDirect_wrap _
      | (apply noDirect_bind; intro _)
  rw [if_neg h1]
  by_cases h2 : name = "send_message"
  · rw [if_pos h2]
    repeat first
      | exact noDirect_wrap _
      | (apply noDirect_bind; intro _)
  rw [if_neg h2]
  by_cases h3 : name = "search_news"
  · rw [if_pos h3]
    repeat first
      | exact noDirect_wrap _
      | (apply noDirect_bind; intro _)
  rw [if_neg h3]
  by_cases h4 : name = "translate_text"
  · rw [if_pos h4]
    repeat first
      | exact noDirect_wrap _
      | (apply noDirect_bind; intro _)
  rw [if_neg h4]
  by_cases h5 : name = "send_ussd"
  · rw [if_pos h5]
    repeat first
      | exact noDirect_wrap _
      | (apply noDirect_bind; intro _)
  rw [if_neg h5]
  by_cases h6 : name = "send_mobile_data"
  · rw [if_pos h6]
    by_cases hc : (env.atUsername.data.isEmpty || env.atApiKey.data.isEmpty)
      = true
    · rw [if_pos hc]
      exact noDirect_direct_self
    · rw [if_neg hc]
      repeat first
        | exact noDirect_wrap _
        | (apply noDirect_bind; intro _)
  rw [if_neg h6]
  by_cases h7 : name = "make_voice_call"
  · rw [if_pos h7]
    repeat first
      | exact noDirect_wrap _
      | (apply noDirect_bind; intro _)
  rw [if_neg h7]
  by_cases h8 : name = "get_wallet_balance"
  · rw [if_pos h8]
    exact noDirect_wrap _
  rw [if_neg h8]
  by_cases h9 : name = "make_voice_call_with_text"
  · rw [if_pos h9]
    repeat first
      | exact noDirect_wrap _
      | (apply noDirect_bind; intro _)
  rw [if_neg h9]
  by_cases h10 : name = "make_voice_call_and_play_audio"
  · rw [if_pos h10]
    repeat first
      | exact noDirect_wrap _
      | (apply noDirect_bind; intro _)
  rw [if_neg h10]
  by_cases h11 : name = "get_application_balance"
  · rw [if_pos h11]
    exact noDirect_wrap _
  rw [if_neg h11]
  by_cases h12 : name = "send_whatsapp_message"
  · rw [if_pos h12]
    repeat first
      | exact noDirect_wrap _
      | (apply noDirect_bind; intro _)
  rw [if_neg h12]
  exact noDirect_wrap _

theorem startsWith_plus_ne_nil (t : String) (h : pyStartsWith t "+" = true) :
    t.data.isEmpty = false := by
  cases ht : t.data with
  | nil =>
    exfalso
    unfold pyStartsWith at h
    rw [ht] at h
    exact absurd h (by decide)
  | cons c cs => rfl

/-! ### Claim theorems -/

/-- C2 (amended): for every string `s` of length at least 4,
`mask_phone_number s` (and identically `mask_api_key s`) preserves the
length, keeps the last four characters, and replaces every earlier
character by `x`; for a string of length below 4 the source returns the
input **unchanged** (not the fixed marker `"****"` the claim states). -/
theorem mask_behavior (s : String) :
    (4 ≤ s.data.length →
      (mask_phone_number s).data.length = s.data.length ∧
      (mask_phone_number s).data.drop (s.data.length - 4) =
        s.data.drop (s.data.length - 4) ∧
      ∀ c ∈ (mask_phone_number s).data.take (s.data.length - 4), c = 'x') ∧
    (s.data.length < 4 → mask_phone_number s = s) ∧
    mask_api_key s = mask_phone_number s := by
  refine ⟨fun h => ⟨?_, ?_, ?_⟩, fun h => ?_, rfl⟩
  · show (List.replicate (s.data.length - 4) 'x' ++
      s.data.drop (s.data.length - 4)).length = s.data.length
    rw [List.length_append, List.length_replicate, List.length_drop]
    omega
  · show (List.replicate (s.data.length - 4) 'x' ++
      s.data.drop (s.data.length - 4)).drop (s.data.length - 4) = _
    have := List.drop_left (List.replicate (s.data.length - 4) 'x')
      (s.data.drop (s.data.length - 4))
    rwa [List.length_replicate] at this
  · intro c hc
    have htake : (List.replicate (s.data.length - 4) 'x' ++
        s.data.drop (s.data.length - 4)).take (s.data.length - 4) =
        List.replicate (s.data.length - 4) 'x' := by
      have := List.take_left (List.replicate (s.data.length - 4) 'x')
        (s.data.drop (s.data.length - 4))
      rwa [List.length_replicate] at this
    rw [show (mask_phone_number s).data = List.replicate (s.data.length - 4) 'x'
      ++ s.data.drop (s.data.length - 4) from rfl, htake] at hc
    exact List.eq_of_mem_replicate hc
  · have hk : s.data.length - 4 = 0 := by omega
    show String.mk (List.replicate (s.data.length - 4) 'x' ++
      s.data.drop (s.data.length - 4)) = s
    rw [hk]
    simp

/-- C2 witness: the two regimes at concrete inputs. -/
theorem mask_behavior_witness :
    (mask_phone_number "+254712345678").data.length =
      ("+254712345678" : String).data.length ∧
    mask_phone_number "ab" = "ab" :=
  ⟨((mask_behavior "+254712345678").1 (by decide)).1,
   (mask_behavior "ab").2.1 (by decide)⟩

/-- C2 counterexample: for the short string `"ab"`, the code returns the
string unchanged and unmasked, not the fixed marker `"****"` required by
the claim. -/
theorem mask_short_string_unmasked :
    mask_phone_number "ab" = "ab" ∧ mask_phone_number "ab" ≠ "****" := by
  constructor
  · decide
  · decide

/-- C4 (amended): in the Gradio app dispatcher an unknown tool name
produces the fixed payload `{"error": "Unknown function"}` (inside the
"executed successfully" wrapper) and no handler is invoked (the result is
the same for every handler bundle); but in `function_call.run` the
registry lookup `available_functions[name]` raises a `KeyError` that
propagates, instead of returning a failure result. -/
theorem unknown_operation_behavior :
    (∀ (H : Handlers) (env : Env) (args : List (String × String)),
      processUserMessageTool H env "does_not_exist" args =
        appWrap "does_not_exist" unknownFunctionJson) ∧
    (∀ (H : Handlers) (env : Env) (args : List (String × String)),
      runDispatchTool H env "does_not_exist" args =
        Except.error "KeyError: does_not_exist") := by
  constructor
  · intro H env args
    rfl
  · intro H env args
    rfl

/-- C4 counterexample: `run`'s dispatch of the unknown operation
`"does_not_exist"` raises a `KeyError` (an uncaught exception, modelled by
`Except.error`), rather than yielding an `UnknownOperation` failure
result. -/
theorem run_unknown_operation_keyerror :
    runDispatchTool defaultHandlers defaultEnv "does_not_exist" [] =
      Except.error "KeyError: does_not_exist" := by
  rfl

/-- C5 (amended): every value the app dispatcher returns for a tool call
is a plain string of one of three shapes — the
"Function `name` executed successfully.Response:\n<response>" wrapper (for
handler payloads and handler-level error JSON alike), the bare
missing-credentials JSON of the `send_mobile_data` branch, or the fixed
generic error message of the `except` clause; no
`{"success": ..., ...}` envelope is produced. -/
theorem dispatch_response_shape (H : Handlers) (env : Env)
    (tool_name : String) (args : List (String × String)) :
    (∃ r, processUserMessageTool H env tool_name args =
      appWrap tool_name r) ∨
    processUserMessageTool H env tool_name args = missingCredsJson ∨
    processUserMessageTool H env tool_name args = genericErrorMsg := by
  unfold processUserMessageTool
  cases hb : appDispatchBody H env tool_name args with
  | error e => right; right; rfl
  | ok v =>
    cases v with
    | wrap r => left; exact ⟨r, rfl⟩
    | direct r =>
      right; left
      rw [appDispatchBody_noDirect H env tool_name args r hb]

/-- The spec envelopes open with a brace; used to separate them from the
strings the code actually returns. -/
theorem specSuccessEnvelope_head (p : String) :
    (specSuccessEnvelope p).data.head? = ("\x7b" : String).data.head? := rfl

theorem specFailureEnvelope_head (k m : String) :
    (specFailureEnvelope k m).data.head? = ("\x7b" : String).data.head? := rfl

/-- C5 counterexample: a concrete successful `send_airtime` dispatch
returns the "executed successfully" wrapper string, which is not of the
`{"success": ...}` envelope shape the claim requires. -/
theorem dispatch_response_not_spec_envelope :
    processUserMessageTool defaultHandlers defaultEnv "send_airtime"
        demoAirtimeArgs =
      appWrap "send_airtime" "\x7b\"status\": \"Sent\"\x7d" ∧
    ¬ specEnvelopeShaped (processUserMessageTool defaultHandlers defaultEnv
        "send_airtime" demoAirtimeArgs) := by
  have h1 : processUserMessageTool defaultHandlers defaultEnv "send_airtime"
      demoAirtimeArgs = appWrap "send_airtime" "\x7b\"status\": \"Sent\"\x7d" := by
    rfl
  refine ⟨h1, ?_⟩
  rw [h1]
  rintro (⟨p, hp⟩ | ⟨k, m, hm⟩)
  · have h2 := congrArg (fun t : String => t.data.head?) hp
    dsimp only at h2
    rw [specSuccessEnvelope_head] at h2
    exact absurd h2 (by decide)
  · have h2 := congrArg (fun t : String => t.data.head?) hm
    dsimp only at h2
    rw [specFailureEnvelope_head] at h2
    exact absurd h2 (by decide)

/-- C3 (amended): a raising handler never lets the exception escape the
per-operation wrapper — `send_airtime`'s wrapper returns
`{"error": <handler error text>}`, whose message carries the handler's
error text verbatim — and the app dispatcher catches exceptions that the
wrappers do not (e.g. from the agent chat of `translate_text`), returning
its fixed generic message; that generic message however does not carry the
handler's error text, and `function_call.run` does not catch such
exceptions at all. -/
theorem handler_exception_containment_amended :
    (∀ (phone_number currency_code amount e : String),
      validateSendAirtime phone_number currency_code amount = [] →
      fcSendAirtime (fun _ _ _ => Except.error e) phone_number currency_code
          amount = jsonErrorStr e ∧
      e.data <:+: (jsonErrorStr e).data) ∧
    (∀ (env : Env) (e t : String),
      processUserMessageTool
        { defaultHandlers with agentChat := fun _ _ => Except.error e } env
        "translate_text" [("text", t), ("target_language", "french")] =
        genericErrorMsg) := by
  constructor
  · intro pn cc amt e hv
    constructor
    · simp only [fcSendAirtime, hv]
    · exact ⟨("\x7b\"error\": \"" : String).data, ("\"\x7d" : String).data,
        rfl⟩
  · intro env e t
    rfl

/-- C3 witness. -/
theorem handler_exception_containment_amended_witness :
    fcSendAirtime (fun _ _ _ => Except.error "boom") "+254712345678" "KES"
        "10" = jsonErrorStr "boom" ∧
    processUserMessageTool
      { defaultHandlers with agentChat := fun _ _ => Except.error "boom" }
      defaultEnv "translate_text"
      [("text", "hello"), ("target_language", "french")] = genericErrorMsg :=
  ⟨(handler_exception_containment_amended.1 "+254712345678" "KES" "10" "boom"
      (by decide)).1,
   handler_exception_containment_amended.2 defaultEnv "boom" "hello"⟩

/-- C3 counterexample: in `function_call.run`, a `translate_text` handler
that raises `"boom"` makes the exception propagate out of the dispatch
(`Except.error`), and the app layer's generic containment message does not
contain the handler's error text. -/
theorem run_translate_exception_propagates :
    runDispatchTool boomHandlers defaultEnv "translate_text"
      [("text", "hi"), ("target_language", "french")] =
        Except.error "boom" ∧
    listContains "boom".data genericErrorMsg.data = false :=
  ⟨rfl, by decide⟩

/-- C1 (amended): dispatching with a bad phone number behaves differently
per operation.  `send_airtime` rejects a number that does not start with
`+` or whose remaining characters are not all digits, `send_message` and
`send_whatsapp_message` reject only a missing `+` prefix, and
`make_voice_call` rejects only a `to_number` with a missing `+` prefix —
in each of these cases with a validation failure naming the phone-number
field (or, for `make_voice_call`, an error JSON naming the numbers) and
without invoking the handler.  But `send_ussd` performs no phone
validation at all (any non-empty number reaches the handler),
`make_voice_call` does not check `from_number`'s prefix, and
`send_message` accepts a `+`-prefixed number with non-numeric remaining
characters and invokes the handler. -/
theorem phone_validation_per_operation :
    (∀ (comm : String → String → String → Except String String)
      (pn cc amt : String),
      (pyStartsWith pn "+" = false ∨
        pyIsDigit (String.mk (pn.data.drop 1)) = false) →
      fcSendAirtime comm pn cc amt =
        strValidationError "SendAirtimeRequest"
          (validateSendAirtime pn cc amt) ∧
      ∃ msg rest, validateSendAirtime pn cc amt =
        ("phone_number", msg) :: rest) ∧
    (∀ (comm : String → String → String → Except String String)
      (pn m u : String), pyStartsWith pn "+" = false →
      fcSendMessage comm pn m u =
        strValidationError "SendSMSRequest" (validateSMS pn m u) ∧
      ∃ msg rest, validateSMS pn m u = ("phone_number", msg) :: rest) ∧
    (∀ comm (usr key wa pn : String)
      (msg mt url cap : Option String) (sb : Bool),
      pyStartsWith wa "+" = false →
      fcSendWhatsapp comm usr key wa pn msg mt url cap sb =
        jsonErrorStr (strValidationError "SendWhatsAppMessageRequest"
          (validateWhatsapp wa pn mt)) ∧
      ∃ m rest, validateWhatsapp wa pn mt = ("wa_number", m) :: rest) ∧
    (∀ (comm : String → String → Except String String) (f t : String),
      pyStartsWith t "+" = false →
      fcMakeVoiceCall comm f t =
        jsonErrorStr ("Invalid phone numbers: from_number=" ++ f ++
          ", to_number=" ++ t)) ∧
    (∀ (resp : String → String → String) (pn code : String),
      pn.data.isEmpty = false → code.data.isEmpty = false →
      fcSendUssd (fun p c => Except.ok (resp p c)) pn code = resp pn code) ∧
    (∀ (resp : String → String → String) (f t : String),
      f.data.isEmpty = false → pyStartsWith t "+" = true →
      fcMakeVoiceCall (fun a b => Except.ok (resp a b)) f t = resp f t) ∧
    (∀ (resp : String → String → String → String) (pn m u : String),
      pyStartsWith pn "+" = true → nonBlankValid m = true →
      nonBlankValid u = true →
      fcSendMessage (fun a b c => Except.ok (resp a b c)) pn m u =
        resp pn m u) := by
  refine ⟨?_, ?_, ?_, ?_, ?_, ?_, ?_⟩
  · intro comm pn cc amt h
    have hpv : airtimePhoneValid pn = false := by
      rcases h with h | h
      · simp [airtimePhoneValid, h]
      · rw [List.drop_one] at h
        simp [airtimePhoneValid, h]
    have hval : validateSendAirtime pn cc amt =
        ("phone_number",
          "phone_number must be in international format, e.g. +254712345678")
        :: ((if currencyCodeValid cc then []
             else [("currency_code",
               "currency_code must be a 3-letter ISO code, e.g. KES")]) ++
            (if amountValid amt then []
             else [("amount",
               "amount must be a valid decimal number, e.g. 10 or 10.50")])) := by
      simp [validateSendAirtime, hpv]
    exact ⟨by simp only [fcSendAirtime, hval], _, _, hval⟩
  · intro comm pn m u h
    have hpv : smsPhoneValid pn = false := by
      simp [smsPhoneValid, h]
    have hval : validateSMS pn m u =
        ("phone_number",
          "phone_number must be in international format, e.g. +254712345678")
        :: ((if nonBlankValid m then []
             else [("message", "message cannot be empty")]) ++
            (if nonBlankValid u then []
             else [("username", "username cannot be empty")])) := by
      simp [validateSMS, hpv]
    exact ⟨by simp only [fcSendMessage, hval], _, _, hval⟩
  · intro comm usr key wa pn msg mt url cap sb h
    have hval : validateWhatsapp wa pn mt =
        ("wa_number", "Phone number must start with +")
        :: ((if plusPhoneValid pn then []
             else [("phone_number", "Phone number must start with +")]) ++
            (if mediaTypeValid mt then []
             else [("media_type",
               "media_type must be one of: Image, Video, Audio, Voice")])) := by
      simp [validateWhatsapp, plusPhoneValid, h]
    exact ⟨by simp only [fcSendWhatsapp, hval], _, _, hval⟩
  · intro comm f t h
    simp [fcMakeVoiceCall, h]
  · intro resp pn code h1 h2
    simp [fcSendUssd, h1, h2]
  · intro resp f t h1 h2
    simp [fcMakeVoiceCall, h1, h2, startsWith_plus_ne_nil t h2]
  · intro resp pn m u h1 h2 h3
    have hval : validateSMS pn m u = [] := by
      simp [validateSMS, smsPhoneValid, h1, h2, h3,
        startsWith_plus_ne_nil pn h1]
    simp only [fcSendMessage, hval]

/-- C1 witness: the positive and negative halves at concrete inputs —
`send_airtime` rejects `"0712"`, while `send_message` passes the
non-numeric `"+0a"` straight to its handler. -/
theorem phone_validation_per_operation_witness :
    fcSendAirtime (fun _ _ _ => Except.ok "X") "0712" "KES" "10" =
      strValidationError "SendAirtimeRequest"
        (validateSendAirtime "0712" "KES" "10") ∧
    fcSendMessage (fun a b c => Except.ok (a ++ b ++ c)) "+0a" "hi" "u" =
      "+0a" ++ "hi" ++ "u" :=
  ⟨(phone_validation_per_operation.1 (fun _ _ _ => Except.ok "X") "0712"
      "KES" "10" (Or.inl (by decide))).1,
   phone_validation_per_operation.2.2.2.2.2.2
     (fun a b c => a ++ b ++ c) "+0a" "hi" "u" (by decide) (by decide)
     (by decide)⟩

/-- C1 counterexample: `send_ussd` dispatched with the phone number
`"0712345678"` (no `+` prefix) returns the handler's payload — the
handler is invoked and no `InvalidArgument` failure is produced. -/
theorem send_ussd_skips_phone_validation :
    fcSendUssd (fun _ _ => Except.ok "USSD_DELEGATED") "0712345678" "*123#" =
      "USSD_DELEGATED" ∧
    fcSendUssd (fun p _ => Except.ok p) "0712345678" "*123#" =
      "0712345678" :=
  ⟨rfl, rfl⟩

/-- C6: `evaluate_safety` is total by construction (its embedding is a
total function); for every input and mode the score lies in `[0, 1]` and
`is_safe` agrees with the `score >= 0.6` threshold, and the empty string
evaluates as safe, with score 1, no flagged patterns, and the
all-checks-passed message. -/
theorem evaluate_safety_total_and_empty_safe (strict : Bool) (s : String) :
    0 ≤ (evaluateSafety strict s).score ∧
    (evaluateSafety strict s).score ≤ 1 ∧
    (evaluateSafety strict s).is_safe =
      decide ((evaluateSafety strict s).score ≥ 0.6) ∧
    evaluateSafety strict "" =
      { is_safe := true, score := 1, flagged_patterns := [],
        message := "Input passed all safety checks." } := by
  refine ⟨?_, ?_, rfl, ?_⟩
  · show 0 ≤ scoreOf strict s
    unfold scoreOf pyMax pyMin
    split_ifs <;> linarith
  · show scoreOf strict s ≤ 1
    unfold scoreOf pyMax pyMin
    split_ifs <;> linarith
  · have h1 : checkPromptInjection "" = (true, []) := by decide
    have h2 : checkPrefixAttack "" = (true, []) := by decide
    have h3 : detectedOps "" = [] := by decide
    have hbase : baseScore strict "" = 1 := by
      simp [baseScore, h1, h2, h3]
      norm_num
    have hscore : scoreOf strict "" = 1 := by
      rw [scoreOf, hbase]
      norm_num [pyMin, pyMax]
    have hsafe : isSafeOf strict "" = true := by
      rw [isSafeOf, hscore]
      exact decide_eq_true (by norm_num)
    have hflag : flaggedOf "" = [] := by decide
    have hmsg : messageOf strict "" = "Input passed all safety checks." := by
      simp [messageOf, hsafe, h3]
    show SafetyCheckResult.mk (isSafeOf strict "") (scoreOf strict "")
      (flaggedOf "") (messageOf strict "") = _
    rw [hsafe, hscore, hflag, hmsg]

/-- C7: an input matching at least one injection pattern and at least one
prefix-attack pattern scores at most 0.5 (in fact exactly 0 — with
`strict_mode` off as the claim highlights, but in strict mode as well),
and carries at least two flagged patterns. -/
theorem compounding_penalty (strict : Bool) (s : String)
    (hinj : (checkPromptInjection s).2 ≠ [])
    (hpre : (checkPrefixAttack s).2 ≠ []) :
    (evaluateSafety strict s).score ≤ 0.5 ∧
    (evaluateSafety false s).score = 0 ∧
    2 ≤ (evaluateSafety strict s).flagged_patterns.length := by
  have h1 : (checkPromptInjection s).1 = false := by
    have he : (checkPromptInjection s).1 =
        (checkPromptInjection s).2.isEmpty := rfl
    rw [he]
    exact Bool.eq_false_iff.mpr fun hh => hinj (List.isEmpty_eq_true.mp hh)
  have h2 : (checkPrefixAttack s).1 = false := by
    have he : (checkPrefixAttack s).1 =
        (checkPrefixAttack s).2.isEmpty := rfl
    rw [he]
    exact Bool.eq_false_iff.mpr fun hh => hpre (List.isEmpty_eq_true.mp hh)
  have hb : ∀ st : Bool, baseScore st s ≤ 0 := by
    intro st
    have hnn : (0:ℚ) ≤ 0.1 * ((detectedOps s).length : ℚ) := by positivity
    simp only [baseScore, h1, h2, Bool.false_eq_true, if_false]
    split_ifs <;> linarith
  have hs : ∀ st : Bool, scoreOf st s = 0 := by
    intro st
    rw [scoreOf, pyMin, if_pos (lt_of_le_of_lt (hb st) (by norm_num)),
      pyMax, if_neg (not_lt.mpr (hb st))]
  refine ⟨?_, ?_, ?_⟩
  · show scoreOf strict s ≤ 0.5
    rw [hs strict]
    norm_num
  · exact hs false
  · show 2 ≤ (flaggedOf s).length
    rcases List.exists_cons_of_ne_nil hinj with ⟨a, ta, hI⟩
    rcases List.exists_cons_of_ne_nil hpre with ⟨b, tb, hP⟩
    simp [flaggedOf, h1, h2, hI, hP]
    omega

/-- C7 witness at `"ignore previous instructions"`, which matches both an
injection pattern and a prefix-attack pattern. -/
theorem compounding_penalty_witness :
    (evaluateSafety false "ignore previous instructions").score = 0 ∧
    2 ≤ (evaluateSafety false
      "ignore previous instructions").flagged_patterns.length :=
  ⟨(compounding_penalty false "ignore previous instructions" (by decide)
      (by decide)).2.1,
   (compounding_penalty false "ignore previous instructions" (by decide)
      (by decide)).2.2⟩

/-- C8: strict mode subtracts exactly `0.1 × (number of detected sensitive
operations)` from the pre-clamp score, and changes nothing else about
pattern detection: the flagged patterns are identical in both modes. -/
theorem strict_mode_only_affects_score (s : String) :
    baseScore true s =
      baseScore false s - 0.1 * ((detectedOps s).length : ℚ) ∧
    (evaluateSafety true s).flagged_patterns =
      (evaluateSafety false s).flagged_patterns := by
  refine ⟨?_, rfl⟩
  cases hD : detectedOps s with
  | nil => simp [baseScore, hD]
  | cons a t => simp [baseScore, hD]

/-- C9: with `strict_mode` off, an input is marked safe exactly when no
injection or prefix pattern was flagged. -/
theorem is_safe_iff_no_flagged_nonstrict (s : String) :
    (evaluateSafety false s).is_safe = true ↔
    (evaluateSafety false s).flagged_patterns = [] := by
  have hip : (checkPromptInjection s).1 =
      (checkPromptInjection s).2.isEmpty := rfl
  have hpp : (checkPrefixAttack s).1 =
      (checkPrefixAttack s).2.isEmpty := rfl
  show isSafeOf false s = true ↔ flaggedOf s = []
  cases hI : (checkPromptInjection s).2 with
  | nil =>
    cases hP : (checkPrefixAttack s).2 with
    | nil =>
      have hbase : baseScore false s = 1 := by
        simp [baseScore, hip, hpp, hI, hP]
        norm_num
      have hscore : scoreOf false s = 1 := by
        rw [scoreOf, hbase]
        norm_num [pyMin, pyMax]
      refine iff_of_true ?_ ?_
      · rw [isSafeOf, hscore]
        exact decide_eq_true (by norm_num)
      · simp [flaggedOf, hip, hpp, hI, hP]
    | cons b tb =>
      have hbase : baseScore false s = 0.5 := by
        simp [baseScore, hip, hpp, hI, hP]
        norm_num
      have hscore : scoreOf false s = 0.5 := by
        rw [scoreOf, hbase]
        norm_num [pyMin, pyMax]
      refine iff_of_false ?_ ?_
      · rw [isSafeOf, hscore]
        simp only [decide_eq_true_eq]
        norm_num
      · simp [flaggedOf, hip, hpp, hI, hP]
  | cons a ta =>
    cases hP : (checkPrefixAttack s).2 with
    | nil =>
      have hbase : baseScore false s = 0.5 := by
        simp [baseScore, hip, hpp, hI, hP]
        norm_num
      have hscore : scoreOf false s = 0.5 := by
        rw [scoreOf, hbase]
        norm_num [pyMin, pyMax]
      refine iff_of_false ?_ ?_
      · rw [isSafeOf, hscore]
        simp only [decide_eq_true_eq]
        norm_num
      · simp [flaggedOf, hip, hpp, hI, hP]
    | cons b tb =>
      have hbase : baseScore false s = 0 := by
        simp [baseScore, hip, hpp, hI, hP]
        norm_num
      have hscore : scoreOf false s = 0 := by
        rw [scoreOf, hbase]
        norm_num [pyMin, pyMax]
      refine iff_of_false ?_ ?_
      · rw [isSafeOf, hscore]
        simp only [decide_eq_true_eq]
        norm_num
      · simp [flaggedOf, hip, hpp, hI, hP]

theorem parseBundle_fst (bundle : String) :
    (parseBundle bundle).1 =
      natFromDigits (bundle.data.filter Char.isDigit) := by
  rw [← bundleLower_digits]
  simp only [parseBundle]
  split_ifs <;> rfl

theorem filter_digits_isEmpty_false (bundle : String)
    (h : bundle.data.filter Char.isDigit ≠ []) :
    ((pyStrip (pyLower bundle)).data.filter Char.isDigit).isEmpty = false := by
  rw [bundleLower_digits]
  exact Bool.eq_false_iff.mpr fun hh => h (List.isEmpty_eq_true.mp hh)

/-- C10: for a string bundle, the parsed quantity is the number formed by
the digit characters of the string in order, the unit is `GB` exactly when
the string contains `"gb"` case-insensitively (`MB` otherwise); a bundle
without digits, or parsing to quantity 0, produces an error JSON without
invoking the upstream send; and on success the upstream send receives
exactly the parsed quantity, unit, mapped validity and product name. -/
theorem mobile_data_bundle_parsing :
    (∀ bundle : String, bundle.data.filter Char.isDigit ≠ [] →
      (parseBundle bundle).1 =
        natFromDigits (bundle.data.filter Char.isDigit) ∧
      ((parseBundle bundle).2 = "GB" ↔ pyIn "gb" (pyLower bundle) = true)) ∧
    (∀ (upstream : String → Nat → String → String → String →
        Except String String) (pn bundle prov plan : String),
      bundle.data.filter Char.isDigit = [] →
      send_mobile_data_wrapper upstream pn bundle prov plan =
        jsonErrorStr
          "Error in send_mobile_data_wrapper: invalid literal for int() with base 10: ''") ∧
    (∀ (upstream : String → Nat → String → String → String →
        Except String String) (pn bundle prov plan : String),
      bundle.data.filter Char.isDigit ≠ [] → (parseBundle bundle).1 = 0 →
      send_mobile_data_wrapper upstream pn bundle prov plan =
        jsonErrorStr
          "Error in send_mobile_data_wrapper: Bundle quantity must be positive: 0") ∧
    (∀ (f : String → Nat → String → String → String → String)
      (pn bundle prov plan validity : String),
      (parseBundle bundle).1 ≠ 0 →
      planMapping (pyStrip (pyLower plan)) = some validity →
      send_mobile_data_wrapper (fun a q u v p => Except.ok (f a q u v p))
          pn bundle prov plan =
        f pn (parseBundle bundle).1 (parseBundle bundle).2 validity
          (pyStrip prov ++ "_mobile_data")) := by
  refine ⟨?_, ?_, ?_, ?_⟩
  · intro bundle _
    refine ⟨parseBundle_fst bundle, ?_⟩
    have hin : pyIn "gb" (pyStrip (pyLower bundle)) =
        pyIn "gb" (pyLower bundle) := pyIn_gb_strip (pyLower bundle)
    cases hgb : pyIn "gb" (pyStrip (pyLower bundle)) with
    | false =>
      refine iff_of_false ?_ ?_
      · simp only [parseBundle, hgb, Bool.false_eq_true, if_false]
        decide
      · rw [← hin, hgb]
        simp
    | true =>
      refine iff_of_true ?_ ?_
      · simp only [parseBundle, hgb, if_true]
      · rw [← hin, hgb]
  · intro upstream pn bundle prov plan h
    have hfe : ((pyStrip (pyLower bundle)).data.filter Char.isDigit).isEmpty
        = true := by
      rw [bundleLower_digits, h]
      rfl
    simp [send_mobile_data_wrapper, hfe]
  · intro upstream pn bundle prov plan hne h0
    have hfe := filter_digits_isEmpty_false bundle hne
    simp only [send_mobile_data_wrapper, hfe, Bool.false_eq_true, if_false,
      h0, if_pos rfl]
    rfl
  · intro f pn bundle prov plan validity hq hplan
    have hne : bundle.data.filter Char.isDigit ≠ [] := by
      intro hnil
      exact hq (by rw [parseBundle_fst, hnil]; rfl)
    have hfe := filter_digits_isEmpty_false bundle hne
    simp only [send_mobile_data_wrapper, hfe, Bool.false_eq_true, if_false,
      if_neg hq, hplan]

/-- C10 witness at the bundle string `"1.5GB"` (digits `1`, `5` parse to
quantity 15, unit `GB`), provider `"Safaricom"`, plan `"daily"`. -/
theorem mobile_data_bundle_parsing_witness :
    (parseBundle "1.5GB").1 =
      natFromDigits (("1.5GB" : String).data.filter Char.isDigit) ∧
    ((parseBundle "1.5GB").2 = "GB" ↔ pyIn "gb" (pyLower "1.5GB") = true) ∧
    send_mobile_data_wrapper
        (fun a q u v p => Except.ok (a ++ toString q ++ u ++ v ++ p))
        "+254712345678" "1.5GB" "Safaricom" "daily" =
      "+254712345678" ++ toString (parseBundle "1.5GB").1 ++
        (parseBundle "1.5GB").2 ++ "Day" ++
        (pyStrip "Safaricom" ++ "_mobile_data") :=
  ⟨(mobile_data_bundle_parsing.1 "1.5GB" (by decide)).1,
   (mobile_data_bundle_parsing.1 "1.5GB" (by decide)).2,
   mobile_data_bundle_parsing.2.2.2
     (fun a q u v p => a ++ toString q ++ u ++ v ++ p)
     "+254712345678" "1.5GB" "Safaricom" "daily" "Day" (by decide)
     (by decide)⟩
